import Mathlib

/-!
Shallow embedding of the TNI-R delta-v engine
(`tni_deltav_calculations.py`, `tni_performace.py`) and of the mission
phase simulator state machine (`tni_simulator.py`).  Python floats are
modelled as real numbers; the pseudo-random jitter of the simulator is
modelled as explicit oracle inputs to the update step.
-/

namespace TNI

noncomputable section

/-- Gravitational parameter of Earth in km^3/s^2 (`MU_EARTH`). -/
def MU_EARTH : ℝ := 398600.4418

/-- Earth radius in km (`EARTH_RADIUS`). -/
def EARTH_RADIUS : ℝ := 6371.0

/-- The `OrbitParams` dataclass. -/
structure OrbitParams where
  altitude_km : ℝ
  inclination_deg : ℝ

/-- Property `OrbitParams.radius_km`: orbital radius from the centre of the Earth. -/
def OrbitParams.radius_km (o : OrbitParams) : ℝ := 6371 + o.altitude_km

/-- Property `OrbitParams.velocity_ms`: circular orbital velocity in m/s. -/
def OrbitParams.velocity_ms (o : OrbitParams) : ℝ :=
  Real.sqrt (398600.4418 / o.radius_km) * 1000

/-- The `DeltaVBreakdown` dataclass: the seven delta-v components. -/
structure DeltaVBreakdown where
  search_acquisition : ℝ
  hohmann_transfer : ℝ
  plane_change : ℝ
  approach_corrections : ℝ
  final_approach : ℝ
  docking_maneuver : ℝ
  safety_margin : ℝ

/-- Property `DeltaVBreakdown.total`: sum of the seven components. -/
def DeltaVBreakdown.total (b : DeltaVBreakdown) : ℝ :=
  b.search_acquisition + b.hohmann_transfer + b.plane_change +
    b.approach_corrections + b.final_approach + b.docking_maneuver +
    b.safety_margin

/-- Method `TNIRCalculator.hohmann_transfer`: the two burns of a Hohmann transfer
between circular orbits of radii `r1_km` and `r2_km`, in m/s. -/
def hohmann_transfer (r1_km r2_km : ℝ) : ℝ × ℝ :=
  (|Real.sqrt (MU_EARTH * (2 / r1_km - 2 / (r1_km + r2_km))) -
      Real.sqrt (MU_EARTH / r1_km)| * 1000,
   |Real.sqrt (MU_EARTH / r2_km) -
      Real.sqrt (MU_EARTH * (2 / r2_km - 2 / (r1_km + r2_km)))| * 1000)

/-- Python `math.radians`. -/
def radians (deg : ℝ) : ℝ := deg * (Real.pi / 180)

/-- Method `TNIRCalculator.plane_change`: single-burn inclination change cost. -/
def plane_change (velocity_ms angle_deg : ℝ) : ℝ :=
  2 * velocity_ms * Real.sin (radians angle_deg / 2)

/-- Method `TNIRCalculator.phasing_maneuver`: the code drops 5 km and raises back,
adding only the FIRST burn of each of the two `hohmann_transfer` calls
(the second components of the pairs are discarded).  The
`phase_angle_deg` argument is not used. -/
def phasing_maneuver (r_km phase_angle_deg : ℝ) : ℝ :=
  (hohmann_transfer r_km (r_km - 5)).1 + (hohmann_transfer (r_km - 5) r_km).1

/-- Method `TNIRCalculator.calculate_standard_rendezvous`. -/
def calculate_standard_rendezvous (chaser target : OrbitParams)
    (separation_km inclination_diff_deg : ℝ) : DeltaVBreakdown :=
  { search_acquisition := 8.0 + separation_km / 50 * 2.0
    hohmann_transfer := (hohmann_transfer chaser.radius_km target.radius_km).1 +
      (hohmann_transfer chaser.radius_km target.radius_km).2
    plane_change :=
      if 0 < inclination_diff_deg then
        plane_change target.velocity_ms inclination_diff_deg
      else 0
    approach_corrections := 6.0 + separation_km / 100 * 4.0
    final_approach := 4.0 + 0.5 * Real.logb 10 (max 1 separation_km)
    docking_maneuver := 3.0
    safety_margin :=
      (8.0 + separation_km / 50 * 2.0 +
        ((hohmann_transfer chaser.radius_km target.radius_km).1 +
          (hohmann_transfer chaser.radius_km target.radius_km).2) +
        (if 0 < inclination_diff_deg then
          plane_change target.velocity_ms inclination_diff_deg
        else 0) +
        (6.0 + separation_km / 100 * 4.0) +
        (4.0 + 0.5 * Real.logb 10 (max 1 separation_km)) + 3.0) * 0.22 }

/-- Method `TNIRCalculator.calculate_tni_rendezvous`. -/
def calculate_tni_rendezvous (chaser target : OrbitParams)
    (separation_km inclination_diff_deg : ℝ) : DeltaVBreakdown :=
  { search_acquisition := 1.5
    hohmann_transfer := ((hohmann_transfer chaser.radius_km target.radius_km).1 +
      (hohmann_transfer chaser.radius_km target.radius_km).2) * 0.7
    plane_change :=
      if 0 < inclination_diff_deg then
        plane_change target.velocity_ms inclination_diff_deg * 0.85
      else 0
    approach_corrections := 2.0 + separation_km / 200 * 1.0
    final_approach := 1.5 + 0.2 * Real.logb 10 (max 1 separation_km)
    docking_maneuver := 1.2
    safety_margin :=
      (1.5 +
        ((hohmann_transfer chaser.radius_km target.radius_km).1 +
          (hohmann_transfer chaser.radius_km target.radius_km).2) * 0.7 +
        (if 0 < inclination_diff_deg then
          plane_change target.velocity_ms inclination_diff_deg * 0.85
        else 0) +
        (2.0 + separation_km / 200 * 1.0) +
        (1.5 + 0.2 * Real.logb 10 (max 1 separation_km)) + 1.2) * 0.09 }

/-- Method `TNIRCalculator.calculate_propellant_mass`: Tsiolkovsky rocket equation
as written in `tni_deltav_calculations.py` (g0 = 9.80665). -/
def calculate_propellant_mass (dv_ms dry_mass_kg isp_s : ℝ) : ℝ :=
  dry_mass_kg / Real.exp (-dv_ms / (isp_s * 9.80665)) - dry_mass_kg

/-- Function `calculate_propellant_cost_savings` from `tni_performace.py`
(g0 = 9.81): returns (propellant_saved_kg, cost_saved_usd). -/
def calculate_propellant_cost_savings (dv_saved_mps isp dry_mass_kg : ℝ) :
    ℝ × ℝ :=
  (dry_mass_kg * (Real.exp (dv_saved_mps / (isp * 9.81)) - 1),
   dry_mass_kg * (Real.exp (dv_saved_mps / (isp * 9.81)) - 1) * 0.50)

/-- A `DeltaVBreakdown` built directly through the public dataclass
constructor, with `safety_margin` set independently of the other six
fields (all zero). -/
def bad_breakdown : DeltaVBreakdown :=
  { search_acquisition := 0, hohmann_transfer := 0, plane_change := 0
    approach_corrections := 0, final_approach := 0, docking_maneuver := 0
    safety_margin := 1 }

/-- The five named mission phases of `TNISimulator`, plus the initial
`PRE-LAUNCH` label. -/
inductive MissionPhase where
  | PRE_LAUNCH
  | ASCENT
  | TNI_ACTIVATION
  | ORBITAL_INSERTION
  | TNI_DISCONNECT
  | NOMINAL_ORBIT
  deriving DecidableEq

/-- The mutable state of `TNISimulator` that the claims observe. -/
@[ext]
structure SimState where
  time_s : ℝ
  is_running : Bool
  current_phase : MissionPhase
  altitude_km : ℝ
  position_error_m : ℝ
  velocity_error_mps : ℝ
  dv_saved_mps : ℝ
  active_links : ℤ
  is_tni_active : Bool
  speed_multiplier : ℝ

/-- Python `int()` applied to a real: truncation toward zero. -/
def pyInt (x : ℝ) : ℤ := if 0 ≤ x then ⌊x⌋ else -⌊-x⌋

/-- The state set up by `TNISimulator.__init__` (speed index 2 gives the
1x multiplier). -/
def initialState : SimState :=
  { time_s := 0, is_running := false, current_phase := MissionPhase.PRE_LAUNCH
    altitude_km := 0, position_error_m := 25.0, velocity_error_mps := 0.15
    dv_saved_mps := 0, active_links := 0, is_tni_active := false
    speed_multiplier := 1.0 }

/-- The initial state with `is_running` switched on (the START button). -/
def startedState : SimState :=
  { initialState with is_running := true }

/-- Method `TNISimulator._update_simulation_state`.  The two `random.random()`
draws of the `ORBITAL_INSERTION` branch are passed in as the oracle
inputs `j1` and `j2`. -/
def update_simulation_state (s : SimState) (dt j1 j2 : ℝ) : SimState :=
  if s.is_running = false then s
  else if s.time_s + dt * s.speed_multiplier < 150 then
    { s with
      time_s := s.time_s + dt * s.speed_multiplier
      current_phase := MissionPhase.ASCENT
      altitude_km := (s.time_s + dt * s.speed_multiplier) / 150 * 200
      is_tni_active := false
      active_links := 0
      position_error_m := 25.0
      velocity_error_mps := 0.15 }
  else if s.time_s + dt * s.speed_multiplier < 170 then
    { s with
      time_s := s.time_s + dt * s.speed_multiplier
      current_phase := MissionPhase.TNI_ACTIVATION
      is_tni_active := true
      active_links :=
        min 10 (pyInt ((s.time_s + dt * s.speed_multiplier - 150) * 0.5))
      position_error_m :=
        max 0.03 (20 * Real.exp (-(s.time_s + dt * s.speed_multiplier - 150) / 9))
      velocity_error_mps :=
        max 0.003 (0.15 * Real.exp (-(s.time_s + dt * s.speed_multiplier - 150) / 7)) }
  else if s.time_s + dt * s.speed_multiplier < 290 then
    { s with
      time_s := s.time_s + dt * s.speed_multiplier
      current_phase := MissionPhase.ORBITAL_INSERTION
      altitude_km := 200 + (s.time_s + dt * s.speed_multiplier - 170) * 0.91
      position_error_m := 0.03 + j1 * 0.02
      velocity_error_mps := 0.002 + j2 * 0.001
      dv_saved_mps := 45 * (1 - (0.03 + j1 * 0.02) / 25) }
  else if s.time_s + dt * s.speed_multiplier < 310 then
    { s with
      time_s := s.time_s + dt * s.speed_multiplier
      current_phase := MissionPhase.TNI_DISCONNECT
      active_links :=
        max 0 (10 - pyInt ((s.time_s + dt * s.speed_multiplier - 290) * 0.5)) }
  else
    { s with
      time_s := s.time_s + dt * s.speed_multiplier
      current_phase := MissionPhase.NOMINAL_ORBIT
      is_running := false }

/-- Run a sequence of update calls; each list entry carries the `dt` of
the call and the two jitter draws for that call. -/
def runSeq (s : SimState) (l : List (ℝ × ℝ × ℝ)) : SimState :=
  l.foldl (fun st e => update_simulation_state st e.1 e.2.1 e.2.2) s

/-- Cumulative `dt` of a sequence of calls. -/
def dtSum (l : List (ℝ × ℝ × ℝ)) : ℝ := (l.map (fun e => e.1)).sum

/-- The phase dispatch of `_update_simulation_state` as a pure function of
time (the threshold chain over `TIME_PHASES`). -/
def phaseOfTime (t : ℝ) : MissionPhase :=
  if t < 150 then MissionPhase.ASCENT
  else if t < 170 then MissionPhase.TNI_ACTIVATION
  else if t < 290 then MissionPhase.ORBITAL_INSERTION
  else if t < 310 then MissionPhase.TNI_DISCONNECT
  else MissionPhase.NOMINAL_ORBIT

/-- Invariant carried by `runSeq` from the started state: the speed
multiplier stays 1, the link count stays within [0, 10], and either the
simulation is still running with `time_s` equal to the cumulative `dt`
(below 310, phase given by `phaseOfTime` once at least one call has been
made), or it has stopped in `NOMINAL_ORBIT` at a time of at least 310. -/
def SimInv (l : List (ℝ × ℝ × ℝ)) (s : SimState) : Prop :=
  s.speed_multiplier = 1 ∧ 0 ≤ s.active_links ∧ s.active_links ≤ 10 ∧
  ((s.is_running = true ∧ s.time_s = dtSum l ∧ dtSum l < 310 ∧
      (l ≠ [] → s.current_phase = phaseOfTime s.time_s)) ∨
   (s.is_running = false ∧ 310 ≤ s.time_s ∧ s.time_s ≤ dtSum l ∧
      s.current_phase = MissionPhase.NOMINAL_ORBIT))

/-! Theorems about the embedded definitions. -/

/-- The second burn of a Hohmann transfer equals the first burn of the
reversed transfer (the code takes absolute values, so the burn magnitudes
are direction-agnostic). -/
theorem hohmann_snd_eq_fst_swap (r1 r2 : ℝ) :
    (hohmann_transfer r1 r2).2 = (hohmann_transfer r2 r1).1 := by
  simp only [hohmann_transfer]
  rw [add_comm r2 r1, abs_sub_comm]

/-- Claim C6: for radii above the Earth radius, both Hohmann burns are
non-negative and the total transfer cost is exactly symmetric under
swapping the two radii. -/
theorem hohmann_nonneg_and_roundtrip_symm (r1 r2 : ℝ)
    (h1 : 6371 < r1) (h2 : 6371 < r2) :
    0 ≤ (hohmann_transfer r1 r2).1 ∧ 0 ≤ (hohmann_transfer r1 r2).2 ∧
      (hohmann_transfer r1 r2).1 + (hohmann_transfer r1 r2).2 =
        (hohmann_transfer r2 r1).1 + (hohmann_transfer r2 r1).2 := by
  refine ⟨?_, ?_, ?_⟩
  · exact mul_nonneg (abs_nonneg _) (by norm_num)
  · exact mul_nonneg (abs_nonneg _) (by norm_num)
  · rw [hohmann_snd_eq_fst_swap r1 r2, hohmann_snd_eq_fst_swap r2 r1]
    exact add_comm _ _

/-- Witness for C6 at the concrete radii 6766 and 6771. -/
theorem hohmann_nonneg_and_roundtrip_symm_witness :
    0 ≤ (hohmann_transfer 6766 6771).1 ∧ 0 ≤ (hohmann_transfer 6766 6771).2 ∧
      (hohmann_transfer 6766 6771).1 + (hohmann_transfer 6766 6771).2 =
        (hohmann_transfer 6771 6766).1 + (hohmann_transfer 6771 6766).2 :=
  hohmann_nonneg_and_roundtrip_symm 6766 6771 (by norm_num) (by norm_num)

/-- Claim C7: for fixed positive dry mass and specific impulse the
propellant mass is strictly increasing in the delta-v, and it is exactly
zero at zero delta-v. -/
theorem propellant_mass_strict_mono_and_zero (dry isp : ℝ)
    (hdry : 0 < dry) (hisp : 0 < isp) :
    (∀ a b : ℝ, 0 ≤ a → a < b →
      calculate_propellant_mass a dry isp < calculate_propellant_mass b dry isp) ∧
    calculate_propellant_mass 0 dry isp = 0 := by
  have hve : 0 < isp * 9.80665 := by positivity
  constructor
  · intro a b _ hab
    have hlt : Real.exp (-b / (isp * 9.80665)) < Real.exp (-a / (isp * 9.80665)) := by
      apply Real.exp_lt_exp.2
      apply div_lt_div_of_pos_right _ hve
      linarith
    have hpos : 0 < Real.exp (-b / (isp * 9.80665)) := Real.exp_pos _
    have := div_lt_div_of_pos_left hdry hpos hlt
    simp only [calculate_propellant_mass]
    linarith
  · simp [calculate_propellant_mass]

/-- Witness for C7 at dry mass 1 kg, Isp 380 s. -/
theorem propellant_mass_strict_mono_and_zero_witness :
    calculate_propellant_mass 0 1 380 = 0 :=
  (propellant_mass_strict_mono_and_zero 1 380 (by norm_num) (by norm_num)).2

/-- Rational bounds on the two burns of the Hohmann transfer between the
radii 6766 km and 6771 km of the LEO depot scenario. -/
theorem hohmann_6766_6771_bounds :
    1.4 < (hohmann_transfer 6766 6771).1 ∧ (hohmann_transfer 6766 6771).1 < 1.43 ∧
      1.39 < (hohmann_transfer 6766 6771).2 ∧ (hohmann_transfer 6766 6771).2 < 1.45 := by
  have hs : (6766:ℝ) + 6771 = 13537 := by norm_num
  have hA_lo : (7.67684:ℝ) < Real.sqrt (MU_EARTH * (2 / 6766 - 2 / 13537)) := by
    rw [Real.lt_sqrt (by norm_num)]
    rw [MU_EARTH]; norm_num
  have hA_hi : Real.sqrt (MU_EARTH * (2 / 6766 - 2 / 13537)) < 7.67686 := by
    rw [Real.sqrt_lt' (by norm_num)]
    rw [MU_EARTH]; norm_num
  have hB_lo : (7.67543:ℝ) < Real.sqrt (MU_EARTH / 6766) := by
    rw [Real.lt_sqrt (by norm_num)]
    rw [MU_EARTH]; norm_num
  have hB_hi : Real.sqrt (MU_EARTH / 6766) < 7.675435 := by
    rw [Real.sqrt_lt' (by norm_num)]
    rw [MU_EARTH]; norm_num
  have hC_lo : (7.67258:ℝ) < Real.sqrt (MU_EARTH / 6771) := by
    rw [Real.lt_sqrt (by norm_num)]
    rw [MU_EARTH]; norm_num
  have hC_hi : Real.sqrt (MU_EARTH / 6771) < 7.67261 := by
    rw [Real.sqrt_lt' (by norm_num)]
    rw [MU_EARTH]; norm_num
  have hD_lo : (7.67116:ℝ) < Real.sqrt (MU_EARTH * (2 / 6771 - 2 / 13537)) := by
    rw [Real.lt_sqrt (by norm_num)]
    rw [MU_EARTH]; norm_num
  have hD_hi : Real.sqrt (MU_EARTH * (2 / 6771 - 2 / 13537)) < 7.67119 := by
    rw [Real.sqrt_lt' (by norm_num)]
    rw [MU_EARTH]; norm_num
  simp only [hohmann_transfer, hs]
  rw [abs_of_pos (by linarith), abs_of_pos (by linarith)]
  refine ⟨by nlinarith, by nlinarith, by nlinarith, by nlinarith⟩

/-- Claim C4 (counterexample): at radius 6771 km, `phasing_maneuver` does
NOT equal the sum of the two full (two-burn) Hohmann transfers of the
drop-then-raise cycle; the code keeps only the first burn of each call,
which amounts to exactly half of that sum. -/
theorem phasing_maneuver_ne_two_full_transfers :
    phasing_maneuver 6771 0 ≠
      ((hohmann_transfer 6771 6766).1 + (hohmann_transfer 6771 6766).2) +
        ((hohmann_transfer 6766 6771).1 + (hohmann_transfer 6766 6771).2) := by
  have h5 : (6771:ℝ) - 5 = 6766 := by norm_num
  have hphas : phasing_maneuver 6771 0 =
      (hohmann_transfer 6771 6766).1 + (hohmann_transfer 6766 6771).1 := by
    simp only [phasing_maneuver, h5]
  have e1 : (hohmann_transfer 6771 6766).2 = (hohmann_transfer 6766 6771).1 :=
    hohmann_snd_eq_fst_swap 6771 6766
  have e2 : (hohmann_transfer 6766 6771).2 = (hohmann_transfer 6771 6766).1 :=
    hohmann_snd_eq_fst_swap 6766 6771
  have ha : 0 ≤ (hohmann_transfer 6771 6766).1 :=
    mul_nonneg (abs_nonneg _) (by norm_num)
  have hb : 1.4 < (hohmann_transfer 6766 6771).1 := hohmann_6766_6771_bounds.1
  rw [hphas, e1, e2]
  intro h
  nlinarith

/-- Claim C4 (amended): `phasing_maneuver` ignores its phase-angle
argument, and returns the sum of only the first burns of the drop and
raise transfers — which equals the delta-v total of a single full
Hohmann transfer between `r` and `r - 5`. -/
theorem phasing_maneuver_first_burns_only (r θ θ' : ℝ) :
    phasing_maneuver r θ = phasing_maneuver r θ' ∧
      phasing_maneuver r θ =
        (hohmann_transfer r (r - 5)).1 + (hohmann_transfer (r - 5) r).1 ∧
      phasing_maneuver r θ =
        (hohmann_transfer r (r - 5)).1 + (hohmann_transfer r (r - 5)).2 := by
  refine ⟨rfl, rfl, ?_⟩
  rw [hohmann_snd_eq_fst_swap r (r - 5)]
  rfl

/-- The rocket equation applied to a negative dry mass silently returns a
negative propellant mass: nothing in the code validates its inputs. -/
theorem propellant_mass_neg_of_neg_dry (dv dry isp : ℝ)
    (hdv : 0 < dv) (hdry : dry < 0) (hisp : 0 < isp) :
    calculate_propellant_mass dv dry isp < 0 := by
  have hx : 0 < dv / (isp * 9.80665) := by positivity
  have hexp : 1 < Real.exp (dv / (isp * 9.80665)) := by
    have := Real.add_one_le_exp (dv / (isp * 9.80665)); linarith
  have hrw : calculate_propellant_mass dv dry isp =
      dry * Real.exp (dv / (isp * 9.80665)) - dry := by
    simp only [calculate_propellant_mass]
    rw [neg_div, Real.exp_neg, div_eq_mul_inv, inv_inv]
  rw [hrw]; nlinarith

/-- Claim C5 (counterexample): calling the rocket equation with the
invalid dry mass -1 kg is not rejected; the computation proceeds and
returns a (negative) number. -/
theorem propellant_mass_negative_dry_no_error :
    calculate_propellant_mass 100 (-1) 380 < 0 :=
  propellant_mass_neg_of_neg_dry 100 (-1) 380 (by norm_num) (by norm_num)
    (by norm_num)

/-- Claim C5 (amended): no input validation is performed anywhere: the
rocket equation computes a (negative) value on a negative dry mass, and
`OrbitParams.radius_km` is computed unconditionally as `6371 + altitude`
even for negative altitudes. -/
theorem no_input_validation_rocket_equation (dv dry isp alt incl : ℝ)
    (hdv : 0 < dv) (hdry : dry < 0) (hisp : 0 < isp) :
    calculate_propellant_mass dv dry isp < 0 ∧
      (OrbitParams.mk alt incl).radius_km = 6371 + alt :=
  ⟨propellant_mass_neg_of_neg_dry dv dry isp hdv hdry hisp, rfl⟩

/-- Witness for C5 (amended) at dv 100 m/s, dry mass -1 kg, Isp 380 s,
altitude -100 km. -/
theorem no_input_validation_rocket_equation_witness :
    calculate_propellant_mass 100 (-1) 380 < 0 ∧
      (OrbitParams.mk (-100) 0).radius_km = 6371 + (-100) :=
  no_input_validation_rocket_equation 100 (-1) 380 (-100) 0 (by norm_num)
    (by norm_num) (by norm_num)

/-- Claim C10 (counterexample): the two rocket-equation implementations
disagree at dv 1 m/s, dry mass 1 kg, Isp 380 s, because
`tni_deltav_calculations.py` uses g0 = 9.80665 while `tni_performace.py`
uses g0 = 9.81. -/
theorem propellant_implementations_disagree :
    (calculate_propellant_cost_savings 1 380 1).1 ≠
      calculate_propellant_mass 1 1 380 := by
  have h1 : calculate_propellant_mass 1 1 380 =
      Real.exp (1 / (380 * 9.80665)) - 1 := by
    simp only [calculate_propellant_mass]
    rw [neg_div, Real.exp_neg, div_eq_mul_inv, inv_inv, one_mul]
  simp only [calculate_propellant_cost_savings, one_mul, h1]
  intro h
  have h2 : Real.exp (1 / (380 * 9.81)) = Real.exp (1 / (380 * 9.80665)) := by
    linarith
  rw [Real.exp_eq_exp] at h2
  norm_num at h2

/-- Claim C10 (amended): both implementations compute
`dry * (e^(dv/ve) - 1)` but with different g0 constants; they agree
exactly at dv = 0, and for dv > 0 the `tni_performace` version is
strictly smaller (its ve is larger). -/
theorem propellant_implementations_compare (dv dry isp : ℝ)
    (hdry : 0 < dry) (hisp : 0 < isp) :
    (dv = 0 → (calculate_propellant_cost_savings dv isp dry).1 =
      calculate_propellant_mass dv dry isp) ∧
    (0 < dv → (calculate_propellant_cost_savings dv isp dry).1 <
      calculate_propellant_mass dv dry isp) := by
  have hrw : calculate_propellant_mass dv dry isp =
      dry * Real.exp (dv / (isp * 9.80665)) - dry := by
    simp only [calculate_propellant_mass]
    rw [neg_div, Real.exp_neg, div_eq_mul_inv, inv_inv]
  constructor
  · rintro rfl
    simp [calculate_propellant_cost_savings, calculate_propellant_mass]
  · intro hdv
    rw [hrw]
    have hx : dv / (isp * 9.81) < dv / (isp * 9.80665) :=
      div_lt_div_of_pos_left hdv (by positivity) (by nlinarith)
    have hexp := Real.exp_lt_exp.2 hx
    simp only [calculate_propellant_cost_savings]
    nlinarith

/-- Witness for C10 (amended) at dv 1 m/s, dry mass 1 kg, Isp 380 s. -/
theorem propellant_implementations_compare_witness :
    (calculate_propellant_cost_savings 1 380 1).1 <
      calculate_propellant_mass 1 1 380 :=
  (propellant_implementations_compare 1 1 380 (by norm_num) (by norm_num)).2
    (by norm_num)

/-- For non-negative separation and an inclination difference within
[0, 360] degrees, the standard total exceeds the TNI total by more than
18 m/s (the fixed component gap alone is 18.862 m/s and every
separation-, transfer- and plane-change-dependent term only widens it). -/
theorem total_savings_lower (chaser target : OrbitParams) (sep incl : ℝ)
    (hs : 0 ≤ sep) (hi : 0 ≤ incl) (hi360 : incl ≤ 360) :
    (calculate_tni_rendezvous chaser target sep incl).total + 18 ≤
      (calculate_standard_rendezvous chaser target sep incl).total := by
  have hh1 : 0 ≤ (hohmann_transfer chaser.radius_km target.radius_km).1 :=
    mul_nonneg (abs_nonneg _) (by norm_num)
  have hh2 : 0 ≤ (hohmann_transfer chaser.radius_km target.radius_km).2 :=
    mul_nonneg (abs_nonneg _) (by norm_num)
  have hL : 0 ≤ Real.logb 10 (max 1 sep) :=
    Real.logb_nonneg (by norm_num) (le_max_left 1 sep)
  by_cases hp : 0 < incl
  · have hv : 0 ≤ target.velocity_ms := by
      simp only [OrbitParams.velocity_ms]
      positivity
    have hsin : 0 ≤ Real.sin (radians incl / 2) := by
      apply Real.sin_nonneg_of_nonneg_of_le_pi
      · simp only [radians]
        have hπ : (0:ℝ) ≤ Real.pi := Real.pi_pos.le
        positivity
      · simp only [radians]
        have hπ := Real.pi_pos
        nlinarith
    have hpc : 0 ≤ plane_change target.velocity_ms incl := by
      simp only [plane_change]
      exact mul_nonneg (mul_nonneg (by norm_num) hv) hsin
    simp only [calculate_standard_rendezvous, calculate_tni_rendezvous,
      DeltaVBreakdown.total, if_pos hp]
    linarith
  · simp only [calculate_standard_rendezvous, calculate_tni_rendezvous,
      DeltaVBreakdown.total, if_neg hp]
    linarith

/-- Claim C1 (amended): for any scenario with non-negative separation and
an inclination difference in [0, 360] degrees (positive radii), the TNI
breakdown total never exceeds the standard breakdown total, so the
savings are non-negative. -/
theorem tni_total_le_standard_total (chaser target : OrbitParams)
    (sep incl : ℝ) (_hc : 0 < chaser.radius_km) (_ht : 0 < target.radius_km)
    (hs : 0 ≤ sep) (hi : 0 ≤ incl) (hi360 : incl ≤ 360) :
    (calculate_tni_rendezvous chaser target sep incl).total ≤
      (calculate_standard_rendezvous chaser target sep incl).total := by
  have := total_savings_lower chaser target sep incl hs hi hi360
  linarith

/-- Witness for C1 (amended): the LEO depot scenario (395/400 km
altitudes, separation 50 km, coplanar). -/
theorem tni_total_le_standard_total_witness :
    (calculate_tni_rendezvous ⟨395, 0⟩ ⟨400, 0⟩ 50 0).total ≤
      (calculate_standard_rendezvous ⟨395, 0⟩ ⟨400, 0⟩ 50 0).total :=
  tni_total_le_standard_total ⟨395, 0⟩ ⟨400, 0⟩ 50 0
    (by norm_num [OrbitParams.radius_km]) (by norm_num [OrbitParams.radius_km])
    (by norm_num) (by norm_num) (by norm_num)

/-- Claim C1 (counterexample): with an inclination difference of 540
degrees (which is non-negative, as the claim requires), the plane-change
formula 2 v sin(angle/2) turns negative, and the standard total drops
strictly below the TNI total: the savings are negative. -/
theorem standard_total_lt_tni_total_at_inclination_540 :
    (calculate_standard_rendezvous ⟨0, 0⟩ ⟨0, 0⟩ 0 540).total <
      (calculate_tni_rendezvous ⟨0, 0⟩ ⟨0, 0⟩ 0 540).total := by
  have hr : (OrbitParams.mk 0 0).radius_km = 6371 := by
    simp [OrbitParams.radius_km]
  have hpos : (0:ℝ) < 540 := by norm_num
  have hAB : MU_EARTH * (2 / 6371 - 2 / (6371 + 6371)) = MU_EARTH / 6371 := by
    rw [MU_EARTH]; norm_num
  have hhoh : hohmann_transfer 6371 6371 = (0, 0) := by
    simp only [hohmann_transfer, hAB]
    norm_num
  have hrad : radians 540 / 2 = Real.pi + Real.pi / 2 := by
    simp only [radians]; ring
  have hsin : Real.sin (radians 540 / 2) = -1 := by
    rw [hrad, Real.sin_add, Real.sin_pi, Real.cos_pi, Real.sin_pi_div_two]
    ring
  have hv : (1000:ℝ) ≤ (OrbitParams.mk 0 0).velocity_ms := by
    simp only [OrbitParams.velocity_ms, hr]
    have h1 : (1:ℝ) ≤ Real.sqrt (398600.4418 / 6371) := by
      rw [show (1:ℝ) = Real.sqrt 1 by simp]
      apply Real.sqrt_le_sqrt
      norm_num
    nlinarith
  have hpc : plane_change (OrbitParams.mk 0 0).velocity_ms 540 =
      2 * (OrbitParams.mk 0 0).velocity_ms * (-1) := by
    simp only [plane_change, hsin]
  have hmax : max (1:ℝ) 0 = 1 := by norm_num
  simp only [calculate_standard_rendezvous, calculate_tni_rendezvous,
    DeltaVBreakdown.total, hr, hhoh, if_pos hpos, hpc, hmax, Real.logb_one]
  norm_num
  nlinarith

/-- Claim C8 (amended): in the LEO depot scenario (radii 6766 and 6771
km, separation 50 km, coplanar) the Hohmann transfer consists of two
strictly positive burns whose sum lies between 2.7 and 2.9 m/s (not
under 1 m/s), and the standard breakdown total strictly exceeds the TNI
breakdown total. -/
theorem leo_depot_scenario_numerics :
    0 < (hohmann_transfer 6766 6771).1 ∧ 0 < (hohmann_transfer 6766 6771).2 ∧
      2.7 < (hohmann_transfer 6766 6771).1 + (hohmann_transfer 6766 6771).2 ∧
      (hohmann_transfer 6766 6771).1 + (hohmann_transfer 6766 6771).2 < 2.9 ∧
      (calculate_tni_rendezvous ⟨395, 0⟩ ⟨400, 0⟩ 50 0).total <
        (calculate_standard_rendezvous ⟨395, 0⟩ ⟨400, 0⟩ 50 0).total := by
  obtain ⟨b1, b2, b3, b4⟩ := hohmann_6766_6771_bounds
  have htot := total_savings_lower ⟨395, 0⟩ ⟨400, 0⟩ 50 0 (by norm_num)
    (by norm_num) (by norm_num)
  exact ⟨by linarith, by linarith, by linarith, by linarith, by linarith⟩

/-- Claim C8 (counterexample): the sum of the two burns of
`hohmann_transfer 6766 6771` is NOT under 1 m/s (it is about 2.84 m/s). -/
theorem hohmann_6766_6771_sum_not_lt_one :
    ¬ ((hohmann_transfer 6766 6771).1 + (hohmann_transfer 6766 6771).2 < 1) := by
  obtain ⟨b1, _, b3, _⟩ := hohmann_6766_6771_bounds
  intro h
  linarith

/-- Claim C3 (amended): every breakdown returned by the two rendezvous
calculators satisfies the safety-margin invariant at construction:
`safety_margin` equals 0.22 (standard) resp. 0.09 (TNI) times the sum of
the other six components. -/
theorem safety_margin_fraction_of_constructed (chaser target : OrbitParams)
    (sep incl : ℝ) :
    (calculate_standard_rendezvous chaser target sep incl).safety_margin =
      0.22 * ((calculate_standard_rendezvous chaser target sep incl).search_acquisition +
        (calculate_standard_rendezvous chaser target sep incl).hohmann_transfer +
        (calculate_standard_rendezvous chaser target sep incl).plane_change +
        (calculate_standard_rendezvous chaser target sep incl).approach_corrections +
        (calculate_standard_rendezvous chaser target sep incl).final_approach +
        (calculate_standard_rendezvous chaser target sep incl).docking_maneuver) ∧
    (calculate_tni_rendezvous chaser target sep incl).safety_margin =
      0.09 * ((calculate_tni_rendezvous chaser target sep incl).search_acquisition +
        (calculate_tni_rendezvous chaser target sep incl).hohmann_transfer +
        (calculate_tni_rendezvous chaser target sep incl).plane_change +
        (calculate_tni_rendezvous chaser target sep incl).approach_corrections +
        (calculate_tni_rendezvous chaser target sep incl).final_approach +
        (calculate_tni_rendezvous chaser target sep incl).docking_maneuver) := by
  constructor
  · simp only [calculate_standard_rendezvous]
    ring
  · simp only [calculate_tni_rendezvous]
    ring

/-- Claim C3 (counterexample): `DeltaVBreakdown` stores `safety_margin`
as an ordinary dataclass field; the public constructor accepts a value
(here 1, with all other components 0) that matches neither documented
fraction, so the field IS settable independently of the other six. -/
theorem safety_margin_independently_settable :
    bad_breakdown.safety_margin ≠
      0.22 * (bad_breakdown.search_acquisition + bad_breakdown.hohmann_transfer +
        bad_breakdown.plane_change + bad_breakdown.approach_corrections +
        bad_breakdown.final_approach + bad_breakdown.docking_maneuver) ∧
    bad_breakdown.safety_margin ≠
      0.09 * (bad_breakdown.search_acquisition + bad_breakdown.hohmann_transfer +
        bad_breakdown.plane_change + bad_breakdown.approach_corrections +
        bad_breakdown.final_approach + bad_breakdown.docking_maneuver) := by
  constructor
  · simp only [bad_breakdown]
    norm_num
  · simp only [bad_breakdown]
    norm_num

/-- Running the empty call sequence does nothing. -/
theorem runSeq_nil (s : SimState) : runSeq s [] = s := rfl

/-- Appending one call to a sequence composes with one update step. -/
theorem runSeq_append_single (s : SimState) (l : List (ℝ × ℝ × ℝ))
    (e : ℝ × ℝ × ℝ) :
    runSeq s (l ++ [e]) =
      update_simulation_state (runSeq s l) e.1 e.2.1 e.2.2 := by
  simp [runSeq, List.foldl_append]

/-- Cumulative dt of a sequence extended by one call. -/
theorem dtSum_append_single (l : List (ℝ × ℝ × ℝ)) (e : ℝ × ℝ × ℝ) :
    dtSum (l ++ [e]) = dtSum l + e.1 := by
  simp [dtSum]

/-- Python `int()` of a non-negative real is non-negative. -/
theorem pyInt_nonneg {x : ℝ} (hx : 0 ≤ x) : 0 ≤ pyInt x := by
  rw [pyInt, if_pos hx]
  exact Int.floor_nonneg.2 hx

/-- An update on a stopped simulator is a no-op. -/
theorem update_not_running (s : SimState) (dt j1 j2 : ℝ)
    (h : s.is_running = false) :
    update_simulation_state s dt j1 j2 = s := by
  rw [update_simulation_state, if_pos h]

/-- The invariant `SimInv` holds along every run from the started state
whose `dt` inputs are all non-negative. -/
theorem runSeq_invariant (l : List (ℝ × ℝ × ℝ)) :
    (∀ x ∈ l, 0 ≤ x.1) → SimInv l (runSeq startedState l) := by
  induction l using List.reverseRecOn with
  | nil =>
    intro _
    rw [runSeq_nil]
    refine ⟨by norm_num [startedState, initialState],
      by norm_num [startedState, initialState],
      by norm_num [startedState, initialState], Or.inl ⟨rfl, ?_, ?_, ?_⟩⟩
    · norm_num [startedState, initialState, dtSum]
    · norm_num [dtSum]
    · intro hne
      exact absurd rfl hne
  | append_singleton l e ih =>
    intro h
    have he : 0 ≤ e.1 := h e (by simp)
    have hl : ∀ x ∈ l, 0 ≤ x.1 := fun x hx => h x (by simp [hx])
    obtain ⟨hmul, hlk0, hlk10, hrun⟩ := ih hl
    rw [runSeq_append_single]
    simp only [SimInv, dtSum_append_single]
    set s := runSeq startedState l with hsdef
    rcases hrun with ⟨hr, htime, hlt, _⟩ | ⟨hr, h310, hle, hph⟩
    · -- still running: the new time is the cumulative dt
      have hr' : ¬(s.is_running = false) := by rw [hr]; simp
      have htnew : s.time_s + e.1 * s.speed_multiplier = dtSum l + e.1 := by
        rw [hmul, htime]; ring
      by_cases c1 : s.time_s + e.1 * s.speed_multiplier < 150
      · rw [update_simulation_state, if_neg hr', if_pos c1]
        rw [htnew] at c1
        refine ⟨hmul, le_refl 0, by norm_num, Or.inl ⟨hr, htnew, by linarith, ?_⟩⟩
        intro _
        show MissionPhase.ASCENT = phaseOfTime (s.time_s + e.1 * s.speed_multiplier)
        rw [htnew, phaseOfTime, if_pos c1]
      · by_cases c2 : s.time_s + e.1 * s.speed_multiplier < 170
        · rw [update_simulation_state, if_neg hr', if_neg c1, if_pos c2]
          have harg : 0 ≤ (s.time_s + e.1 * s.speed_multiplier - 150) * 0.5 := by
            have := not_lt.1 c1
            nlinarith
          rw [htnew] at c1 c2
          refine ⟨hmul, le_min (by norm_num) (pyInt_nonneg harg), min_le_left _ _,
            Or.inl ⟨hr, htnew, by linarith, ?_⟩⟩
          intro _
          show MissionPhase.TNI_ACTIVATION =
            phaseOfTime (s.time_s + e.1 * s.speed_multiplier)
          rw [htnew, phaseOfTime, if_neg c1, if_pos c2]
        · by_cases c3 : s.time_s + e.1 * s.speed_multiplier < 290
          · rw [update_simulation_state, if_neg hr', if_neg c1, if_neg c2, if_pos c3]
            rw [htnew] at c1 c2 c3
            refine ⟨hmul, hlk0, hlk10, Or.inl ⟨hr, htnew, by linarith, ?_⟩⟩
            intro _
            show MissionPhase.ORBITAL_INSERTION =
              phaseOfTime (s.time_s + e.1 * s.speed_multiplier)
            rw [htnew, phaseOfTime, if_neg c1, if_neg c2, if_pos c3]
          · by_cases c4 : s.time_s + e.1 * s.speed_multiplier < 310
            · rw [update_simulation_state, if_neg hr', if_neg c1, if_neg c2,
                if_neg c3, if_pos c4]
              have harg : 0 ≤ (s.time_s + e.1 * s.speed_multiplier - 290) * 0.5 := by
                have := not_lt.1 c3
                nlinarith
              rw [htnew] at c1 c2 c3 c4
              refine ⟨hmul, le_max_left 0 _,
                max_le (by norm_num) (by linarith [pyInt_nonneg harg]), ?_⟩
              · refine Or.inl ⟨hr, htnew, by linarith, ?_⟩
                intro _
                show MissionPhase.TNI_DISCONNECT =
                  phaseOfTime (s.time_s + e.1 * s.speed_multiplier)
                rw [htnew, phaseOfTime, if_neg c1, if_neg c2, if_neg c3, if_pos c4]
            · rw [update_simulation_state, if_neg hr', if_neg c1, if_neg c2,
                if_neg c3, if_neg c4]
              rw [htnew] at c4
              refine ⟨hmul, hlk0, hlk10, Or.inr ⟨rfl, ?_, ?_, rfl⟩⟩
              · show (310:ℝ) ≤ s.time_s + e.1 * s.speed_multiplier
                rw [htnew]
                linarith [not_lt.1 c4]
              · show s.time_s + e.1 * s.speed_multiplier ≤ dtSum l + e.1
                rw [htnew]
    · -- already stopped: nothing changes, the cumulative dt only grows
      rw [update_not_running s e.1 e.2.1 e.2.2 hr]
      exact ⟨hmul, hlk0, hlk10, Or.inr ⟨hr, h310, by linarith, hph⟩⟩

/-- Claim C2 (amended): from the started state, for every non-empty
sequence of update calls with non-negative dt: while the cumulative dt is
strictly below 150 the phase is ASCENT (at exactly 150 the simulator has
already entered TNI_ACTIVATION, the ASCENT window being the half-open
[0, 150)); at cumulative dt 160 the phase is TNI_ACTIVATION with
`active_links` in [0, 10]; and once the cumulative dt reaches 310 the
phase is the terminal NOMINAL_ORBIT with `is_running` false. -/
theorem simulator_phase_milestones (l : List (ℝ × ℝ × ℝ))
    (h : ∀ x ∈ l, 0 ≤ x.1) (hne : l ≠ []) :
    (dtSum l < 150 →
      (runSeq startedState l).current_phase = MissionPhase.ASCENT) ∧
    (dtSum l = 160 →
      (runSeq startedState l).current_phase = MissionPhase.TNI_ACTIVATION ∧
        0 ≤ (runSeq startedState l).active_links ∧
        (runSeq startedState l).active_links ≤ 10) ∧
    (310 ≤ dtSum l →
      (runSeq startedState l).current_phase = MissionPhase.NOMINAL_ORBIT ∧
        (runSeq startedState l).is_running = false) := by
  obtain ⟨hmul, hlk0, hlk10, hrun⟩ := runSeq_invariant l h
  refine ⟨?_, ?_, ?_⟩
  · intro hs
    rcases hrun with ⟨_, htime, _, hphase⟩ | ⟨_, h310, hle, _⟩
    · rw [hphase hne, htime, phaseOfTime, if_pos hs]
    · linarith
  · intro hs
    rcases hrun with ⟨_, htime, _, hphase⟩ | ⟨_, h310, hle, _⟩
    · refine ⟨?_, hlk0, hlk10⟩
      rw [hphase hne, htime, hs, phaseOfTime]
      norm_num
    · rw [hs] at hle; linarith
  · intro hs
    rcases hrun with ⟨_, _, hlt, _⟩ | ⟨hr, _, _, hph⟩
    · linarith
    · exact ⟨hph, hr⟩

/-- Witness for C2 (amended): a single update call of 160 seconds lands
in TNI_ACTIVATION. -/
theorem simulator_phase_milestones_witness :
    (runSeq startedState [(160, 0, 0)]).current_phase =
      MissionPhase.TNI_ACTIVATION := by
  have h := simulator_phase_milestones [(160, 0, 0)]
    (by intro x hx; simp only [List.mem_singleton] at hx; rw [hx]; norm_num)
    (by simp)
  exact (h.2.1 (by norm_num [dtSum])).1

/-- Claim C2 (counterexample): a single update call with dt = 150 (so the
cumulative dt sums to exactly 150) puts the simulator in TNI_ACTIVATION,
not in ASCENT as the claim states. -/
theorem phase_at_150_not_ascent :
    (runSeq startedState [(150, 0, 0)]).current_phase =
        MissionPhase.TNI_ACTIVATION ∧
      (runSeq startedState [(150, 0, 0)]).current_phase ≠
        MissionPhase.ASCENT := by
  have hph : (runSeq startedState [(150, 0, 0)]).current_phase =
      MissionPhase.TNI_ACTIVATION := by
    show (update_simulation_state startedState 150 0 0).current_phase =
      MissionPhase.TNI_ACTIVATION
    norm_num [update_simulation_state, startedState, initialState]
  refine ⟨hph, ?_⟩
  rw [hph]
  decide

/-- Claim C9 (amended): a zero-length step replayed with the SAME jitter
draws leaves the whole state unchanged: applying the update once more
with dt = 0 and the same oracle inputs is the identity on the result of
any update.  (With fresh draws this fails in ORBITAL_INSERTION, see the
counterexample.) -/
theorem update_zero_dt_idempotent_fixed_jitter (s : SimState) (dt j1 j2 : ℝ) :
    update_simulation_state (update_simulation_state s dt j1 j2) 0 j1 j2 =
      update_simulation_state s dt j1 j2 := by
  by_cases hr : s.is_running = false
  · rw [update_not_running s dt j1 j2 hr, update_not_running s 0 j1 j2 hr]
  · by_cases c1 : s.time_s + dt * s.speed_multiplier < 150
    · simp only [update_simulation_state, if_neg hr, if_pos c1, zero_mul,
        add_zero]
    · by_cases c2 : s.time_s + dt * s.speed_multiplier < 170
      · simp only [update_simulation_state, if_neg hr, if_neg c1, if_pos c2,
          zero_mul, add_zero]
      · by_cases c3 : s.time_s + dt * s.speed_multiplier < 290
        · simp only [update_simulation_state, if_neg hr, if_neg c1, if_neg c2,
            if_pos c3, zero_mul, add_zero]
        · by_cases c4 : s.time_s + dt * s.speed_multiplier < 310
          · simp only [update_simulation_state, if_neg hr, if_neg c1, if_neg c2,
              if_neg c3, if_pos c4, zero_mul, add_zero]
          · simp only [update_simulation_state, if_neg hr, if_neg c1, if_neg c2,
              if_neg c3, if_neg c4, zero_mul, add_zero, ite_self]

/-- Claim C9 (counterexample): at a reachable ORBITAL_INSERTION state
(one update of 200 s from the started state, jitter draws 0), a
zero-length step with fresh jitter draws 0.5 changes the observable
position error from 0.03 m to 0.04 m: `advance(0)` is NOT idempotent
because the stochastic jitter is redrawn. -/
theorem update_zero_dt_changes_with_fresh_jitter :
    (update_simulation_state
        (update_simulation_state startedState 200 0 0) 0 0.5 0.5).position_error_m ≠
      (update_simulation_state startedState 200 0 0).position_error_m := by
  norm_num [update_simulation_state, startedState, initialState]

end

end TNI
